import Mathlib

/-!
Verification of the human-like input simulation / safety-monitoring core of the
`toolbox` repository (`wow-game-agent`), shallowly embedded in Lean 4.

Conventions of the embedding:
* All JavaScript numbers are modelled as exact rationals (`ℚ`).  Floating-point
  rounding and `NaN` propagation are not modelled; where a division by zero can
  occur in the source, the Lean convention `q / 0 = 0` applies and is noted.
* `Math.random()` is modelled as an oracle tape of rational draws (field
  `unif`).  The Box–Muller construction `gaussianRandom` consumes its `z`
  value from a second tape (`gaussZ`); since
  `z = sqrt(-2 ln u) * cos(2 pi v)` ranges over all of `ℝ` as `u, v` range
  over `(0,1)`, an arbitrary rational tape entry is a faithful model of one
  gaussian draw, and every theorem below quantifies over all tapes.
* The transcendental library routines `Math.sqrt` and `Math.log2` are
  modelled by an abstract `MathOracle`; every theorem quantifies over all
  oracles, and concrete witnesses instantiate them with exact rational
  approximations (a floor integer square root, a floor base-2 logarithm) that
  agree with the true functions on the inputs used.
* Free-text fields of records (`message`, `description`, `id`, …) and logging
  calls are omitted: no claim mentions them and they influence no control flow.
-/

/-- The `Math.sqrt` / `Math.log2` library calls of the source, as an abstract
oracle.  All theorems hold for every oracle. -/
structure MathOracle where
  sqrt : ℚ → ℚ
  log2 : ℚ → ℚ

/-- The stream of random draws: `unif` models successive `Math.random()`
results, `gaussZ` models the standardized value produced by one Box–Muller
`gaussianRandom` call. -/
structure Tape where
  unif : ℕ → ℚ
  gaussZ : ℕ → ℚ
  ui : ℕ
  gi : ℕ

/-- One `this.random()` call. -/
def Tape.nextUnif (t : Tape) : ℚ × Tape :=
  (t.unif t.ui, { t with ui := t.ui + 1 })

/-- One standardized gaussian draw (the `z` of the source's Box–Muller
`gaussianRandom`). -/
def Tape.nextGauss (t : Tape) : ℚ × Tape :=
  (t.gaussZ t.gi, { t with gi := t.gi + 1 })

/-- `gaussianRandom(mean, stdDev)` of the source: `z * stdDev + mean`. -/
def gaussianRandom (mean stdDev : ℚ) (t : Tape) : ℚ × Tape :=
  let (z, t') := t.nextGauss
  (z * stdDev + mean, t')

/-- A concrete tape for witnesses/counterexamples: constant uniform draw `u`,
gaussian-z draws taken from the list `zs` in order (0 beyond its end). -/
def Tape.const (u : ℚ) (zs : List ℚ) : Tape :=
  { unif := fun _ => u, gaussZ := fun i => (zs.getD i 0), ui := 0, gi := 0 }

/-- Fuel-driven binary search for the integer square root: the largest
`x ∈ [lo, hi]` with `x² ≤ n` (exact for `fuel ≥ 64` and `n < 2^64`). -/
def isqrtAux (n : ℕ) : ℕ → ℕ → ℕ → ℕ
  | 0, lo, _ => lo
  | fuel + 1, lo, hi =>
    if hi ≤ lo then lo
    else
      let m := (lo + hi + 1) / 2
      if m * m ≤ n then isqrtAux n fuel m hi else isqrtAux n fuel lo (m - 1)

/-- Floor integer square root (structural recursion, kernel-evaluable). -/
def isqrt (n : ℕ) : ℕ := isqrtAux n 64 0 n

/-- A concrete square-root oracle, exact on squares of rationals; used only
inside witnesses and counterexamples. -/
def sqrtApprox (q : ℚ) : ℚ :=
  (isqrt q.num.natAbs : ℚ) / (isqrt q.den : ℚ)

/-- Fuel-driven floor base-2 logarithm of a natural number. -/
def log2Floor : ℕ → ℕ → ℕ
  | 0, _ => 0
  | fuel + 1, n => if n ≤ 1 then 0 else log2Floor fuel (n / 2) + 1

/-- A concrete base-2 logarithm oracle, exact on integer powers of two; used
only inside witnesses and counterexamples. -/
def log2Approx (q : ℚ) : ℚ :=
  if 1 ≤ q then (log2Floor 64 (Int.toNat (Int.floor q)) : ℚ)
  else -((log2Floor 64 (Int.toNat (Int.ceil q⁻¹)) : ℚ))

/-- The concrete oracle used by witnesses. -/
def oracle0 : MathOracle :=
  { sqrt := sqrtApprox, log2 := log2Approx }

/-! ## BehaviorRandomizer
Embedding of `src/wow-game-agent/src/core/safety-monitor/behavior-randomizer.ts`. -/

/-- `RandomizationStrategy` of the source. -/
inductive RandomizationStrategy where
  | subtle
  | moderate
  | natural
  | chaotic
deriving DecidableEq, Repr

/-- `BehaviorVariationType` of the source. -/
inductive BehaviorVariationType where
  | timingOffset
  | spatialDeviation
  | sequenceReversal
  | extraPause
  | doubleTap
  | misclick
  | correctionMove
deriving DecidableEq, Repr

/-- `IBehaviorVariation` of the source (free-text fields and the timestamp
omitted; they influence no control flow and no claim mentions them). -/
structure Variation where
  vtype : BehaviorVariationType
  severity : ℚ
deriving DecidableEq, Repr

/-- `IBehaviorPatternConfig` of the source. -/
structure BRConfig where
  strategy : RandomizationStrategy
  rhythmicVariation : ℚ
  errorSimulation : ℚ
  attentionDrift : ℚ
  fatigueProgression : ℚ
  microAdjustments : ℚ
deriving DecidableEq, Repr

/-- The defaults of the `BehaviorRandomizer` constructor. -/
def BRConfig.default : BRConfig :=
  { strategy := .moderate, rhythmicVariation := 3/10, errorSimulation := 1/50,
    attentionDrift := 1/5, fatigueProgression := 1/10, microAdjustments := 3/20 }

/-- One entry of `this.operationHistory`. -/
structure OpRecord where
  operation : String
  baseTiming : ℚ
  actualTiming : ℚ
  variationCount : ℕ
deriving DecidableEq, Repr

/-- The mutable state of one `BehaviorRandomizer` instance, plus its session's
`fatigueLevel` and the random tape. -/
structure BRState where
  config : BRConfig
  fatigueLevel : ℚ
  attentionLevel : ℚ
  driftX : ℚ
  driftY : ℚ
  variations : List Variation
  operationHistory : List OpRecord
  tape : Tape

/-- `calculateVariance` of `BehaviorRandomizer` (population variance; 0 on the
empty list). -/
def calculateVariance (values : List ℚ) : ℚ :=
  if values.length = 0 then 0
  else
    let mean := values.sum / values.length
    ((values.map (fun v => (v - mean) ^ 2)).sum) / values.length

/-- The rhythmic-offset computation of `applyRhythmicVariation`: with at
least 3 recent history entries the offset is drawn only when their variance
is below 30% of their mean, otherwise a plain random offset is drawn. -/
def rhythmicOffsetDraw (baseDelay : ℚ) (s : BRState) : ℚ × BRState :=
  let recentDelays := ((s.operationHistory.drop (s.operationHistory.length - 10)).map
    (·.actualTiming))
  if recentDelays.length ≥ 3 then
    let avgDelay := recentDelays.sum / recentDelays.length
    let variance := calculateVariance recentDelays
    if variance < avgDelay * (3/10) then
      let (r, t) := s.tape.nextUnif
      ((r - 1/2) * baseDelay * s.config.rhythmicVariation * (1/2), { s with tape := t })
    else (0, s)
  else
    let (r, t) := s.tape.nextUnif
    ((r - 1/2) * baseDelay * s.config.rhythmicVariation, { s with tape := t })

/-- `applyRhythmicVariation` of the source (its offset computation split into
`rhythmicOffsetDraw` above).  Returns the offset and the variation that was
pushed onto `this.variations` (`none` on the `rhythmicVariation === 0` early
return, where the source returns a `null` placeholder and pushes nothing). -/
def applyRhythmicVariation (baseDelay : ℚ) (s : BRState) :
    ℚ × Option Variation × BRState :=
  if s.config.rhythmicVariation = 0 then (0, none, s)
  else
    let d := rhythmicOffsetDraw baseDelay s
    let variation : Variation := ⟨.timingOffset, |d.1 / baseDelay|⟩
    (d.1, some variation, { d.2 with variations := d.2.variations ++ [variation] })

/-- `applyAttentionImpact` of the source; always pushes one variation. -/
def applyAttentionImpact (baseDelay : ℚ) (s : BRState) :
    ℚ × Option Variation × BRState :=
  let attentionImpact := (1 - s.attentionLevel) * s.config.attentionDrift
  let (r, t) := s.tape.nextUnif
  let offset := baseDelay * attentionImpact * (r - 1/2) * (2/5)
  let variation : Variation := ⟨.extraPause, |offset / baseDelay|⟩
  (offset, some variation,
    { s with tape := t, variations := s.variations ++ [variation] })

/-- `applyFatigueImpact` of the source; always pushes one variation (note the
source records the *signed* `offset / baseDelay` as severity here). -/
def applyFatigueImpact (baseDelay : ℚ) (s : BRState) :
    ℚ × Option Variation × BRState :=
  let fatigueFactor := s.fatigueLevel * s.config.fatigueProgression
  let (r, t) := s.tape.nextUnif
  let offset := baseDelay * fatigueFactor * (1/2 + r * (1/2))
  let variation : Variation := ⟨.extraPause, offset / baseDelay⟩
  (offset, some variation,
    { s with tape := t, variations := s.variations ++ [variation] })

/-- `applyStrategicRandomization` of the source; always pushes one variation. -/
def applyStrategicRandomization (baseDelay : ℚ) (s : BRState) :
    ℚ × Option Variation × BRState :=
  let stdDev :=
    match s.config.strategy with
    | .subtle => baseDelay * (1/20)
    | .moderate => baseDelay * (3/20)
    | .natural => baseDelay * (1/4)
    | .chaotic => baseDelay * (2/5)
  let (offset, t) := gaussianRandom 0 stdDev s.tape
  let variation : Variation := ⟨.timingOffset, |offset / baseDelay|⟩
  (offset, some variation,
    { s with tape := t, variations := s.variations ++ [variation] })

/-- `randomizeDelay` of the source: sums the four contributors (each one's
offset only added, and its variation only collected into the *returned* list,
when the offset is non-zero), clamps into `[0.3·base, 3·base]`, appends one
`operationHistory` record and trims that history past 1000 entries. -/
def randomizeDelay (baseDelay : ℚ) (operationType : Option String) (s : BRState) :
    (ℚ × List Variation) × BRState :=
  let r₁ := applyRhythmicVariation baseDelay s
  let vars₁ := if r₁.1 ≠ 0 then r₁.2.1.toList else []
  let d₁ := if r₁.1 ≠ 0 then baseDelay + r₁.1 else baseDelay
  let r₂ := applyAttentionImpact baseDelay r₁.2.2
  let vars₂ := vars₁ ++ (if r₂.1 ≠ 0 then r₂.2.1.toList else [])
  let d₂ := if r₂.1 ≠ 0 then d₁ + r₂.1 else d₁
  let r₃ := applyFatigueImpact baseDelay r₂.2.2
  let vars₃ := vars₂ ++ (if r₃.1 ≠ 0 then r₃.2.1.toList else [])
  let d₃ := if r₃.1 ≠ 0 then d₂ + r₃.1 else d₂
  let r₄ := applyStrategicRandomization baseDelay r₃.2.2
  let vars₄ := vars₃ ++ (if r₄.1 ≠ 0 then r₄.2.1.toList else [])
  let d₄ := if r₄.1 ≠ 0 then d₃ + r₄.1 else d₃
  let minDelay := baseDelay * (3/10)
  let maxDelay := baseDelay * 3
  let adjustedDelay := max minDelay (min maxDelay d₄)
  let history := r₄.2.2.operationHistory ++
    [⟨operationType.getD "unknown", baseDelay, adjustedDelay, vars₄.length⟩]
  let history := if history.length > 1000 then history.drop 500 else history
  ((adjustedDelay, vars₄), { r₄.2.2 with operationHistory := history })

/-- `shouldReorderSequence` of the source (5% gate). -/
def shouldReorderSequence (s : BRState) : Bool × BRState :=
  let (r, t) := s.tape.nextUnif
  (decide (r < 1/20), { s with tape := t })

/-- `shouldOmitOperation` of the source (2% gate). -/
def shouldOmitOperation (s : BRState) : Bool × BRState :=
  let (r, t) := s.tape.nextUnif
  (decide (r < 1/50), { s with tape := t })

/-- `shouldDuplicateOperation` of the source (1% gate). -/
def shouldDuplicateOperation (s : BRState) : Bool × BRState :=
  let (r, t) := s.tape.nextUnif
  (decide (r < 1/100), { s with tape := t })

/-- `Math.floor(r * len)` index draw of the source. -/
def drawIndex (len : ℕ) (t : Tape) : ℕ × Tape :=
  let (r, t') := t.nextUnif
  ((Int.floor (r * len)).toNat, t')

/-- The source's `while (index2 === index1)` retry loop, modelled with fuel;
on exhaustion (unreachable for any tape that eventually produces a different
index) it falls back to a deterministic distinct index. -/
def drawIndexNe (len index1 : ℕ) : ℕ → Tape → ℕ × Tape
  | 0, t => ((index1 + 1) % len, t)
  | fuel + 1, t =>
    let (i2, t') := drawIndex len t
    if i2 = index1 then drawIndexNe len index1 fuel t' else (i2, t')

/-- `reorderSequence` of the source: swap two random distinct positions. -/
def reorderSequence {α : Type _} [Inhabited α] (seq : List α) (s : BRState) :
    List α × Option Variation × BRState :=
  if seq.length < 2 then (seq, none, s)
  else
    let (index1, t1) := drawIndex seq.length s.tape
    let (index2, t2) := drawIndexNe seq.length index1 1000 t1
    let a := seq.getD index1 default
    let b := seq.getD index2 default
    let newSequence := (seq.set index1 b).set index2 a
    let variation : Variation := ⟨.sequenceReversal, 3/10⟩
    (newSequence, some variation,
      { s with tape := t2, variations := s.variations ++ [variation] })

/-- `omitOperation` of the source: drop one random position. -/
def omitOperation {α : Type _} (seq : List α) (s : BRState) :
    List α × Option Variation × BRState :=
  if seq.length = 0 then (seq, none, s)
  else
    let (omitIndex, t1) := drawIndex seq.length s.tape
    let newSequence := seq.eraseIdx omitIndex
    let variation : Variation := ⟨.sequenceReversal, 1/2⟩
    (newSequence, some variation,
      { s with tape := t1, variations := s.variations ++ [variation] })

/-- `duplicateOperation` of the source: re-insert one random element at its
own position. -/
def duplicateOperation {α : Type _} [Inhabited α] (seq : List α) (s : BRState) :
    List α × Option Variation × BRState :=
  if seq.length = 0 then (seq, none, s)
  else
    let (duplicateIndex, t1) := drawIndex seq.length s.tape
    let newSequence := seq.insertIdx duplicateIndex (seq.getD duplicateIndex default)
    let variation : Variation := ⟨.doubleTap, 2/5⟩
    (newSequence, some variation,
      { s with tape := t1, variations := s.variations ++ [variation] })

/-- The mutation gates of `randomizeOperationSequence`'s context argument
(absent options are `undefined`, i.e. false). -/
structure SeqContext where
  allowReordering : Bool
  allowOmission : Bool
  allowDuplication : Bool
deriving DecidableEq, Repr

/-- `randomizeOperationSequence` of the source.  Each probability gate is
drawn only when the corresponding `allow…` option is set (JavaScript `&&`
short-circuit). -/
def randomizeOperationSequence {α : Type _} [Inhabited α]
    (seq : List α) (ctx : SeqContext) (s : BRState) :
    (List α × List Variation) × BRState :=
  let (seq₁, vars₁, s₁) :=
    if ctx.allowReordering then
      let (b, s') := shouldReorderSequence s
      if b then
        let (sq, v, s'') := reorderSequence seq s'
        (sq, v.toList, s'')
      else (seq, [], s')
    else (seq, [], s)
  let (seq₂, vars₂, s₂) :=
    if ctx.allowOmission then
      let (b, s') := shouldOmitOperation s₁
      if b then
        let (sq, v, s'') := omitOperation seq₁ s'
        (sq, v.toList, s'')
      else (seq₁, [], s')
    else (seq₁, [], s₁)
  let (seq₃, vars₃, s₃) :=
    if ctx.allowDuplication then
      let (b, s') := shouldDuplicateOperation s₂
      if b then
        let (sq, v, s'') := duplicateOperation seq₂ s'
        (sq, v.toList, s'')
      else (seq₂, [], s')
    else (seq₂, [], s₂)
  ((seq₃, vars₁ ++ vars₂ ++ vars₃), s₃)

/-! ## HumanLikeBezierGenerator
Embedding of `src/wow-game-agent/src/core/human-input/delay-calculator.ts`
(the bezier-generator part of that concatenated source file). -/

/-- `IPoint` of the source. -/
structure Point where
  x : ℚ
  y : ℚ
deriving DecidableEq, Repr

/-- `CubicBezier.getPoint` of the source. -/
def cubicGetPoint (p0 p1 p2 p3 : Point) (t : ℚ) : Point :=
  ⟨(1 - t) ^ 3 * p0.x + 3 * (1 - t) ^ 2 * t * p1.x
     + 3 * (1 - t) * t ^ 2 * p2.x + t ^ 3 * p3.x,
   (1 - t) ^ 3 * p0.y + 3 * (1 - t) ^ 2 * t * p1.y
     + 3 * (1 - t) * t ^ 2 * p2.y + t ^ 3 * p3.y⟩

/-- `CubicBezier.getLength` of the source: the polyline length over 100
samples (the running `prevPoint` starts at `p0 = getPoint 0`). -/
def cubicGetLength (O : MathOracle) (p0 p1 p2 p3 : Point) : ℚ :=
  (List.range 100).foldl
    (fun acc i =>
      let prev := cubicGetPoint p0 p1 p2 p3 ((i : ℚ) / 100)
      let cur := cubicGetPoint p0 p1 p2 p3 (((i : ℚ) + 1) / 100)
      acc + O.sqrt ((cur.x - prev.x) ^ 2 + (cur.y - prev.y) ^ 2)) 0

/-- `generateControlPoints` of the source. -/
def generateControlPoints (O : MathOracle) (start finish : Point)
    (curvature deviation : ℚ) (t : Tape) : (Point × Point) × Tape :=
  let dx := finish.x - start.x
  let dy := finish.y - start.y
  let length := O.sqrt (dx * dx + dy * dy)
  if length = 0 then ((start, finish), t)
  else
    let unitX := dx / length
    let unitY := dy / length
    let perpX := -unitY
    let perpY := unitX
    let controlDistance := length * curvature / 2
    let (randomDeviation, t') := gaussianRandom 0 deviation t
    let finalDistance := controlDistance + randomDeviation
    let cp1 : Point :=
      ⟨start.x + unitX * length * (1/4) + perpX * finalDistance * (1/2),
       start.y + unitY * length * (1/4) + perpY * finalDistance * (1/2)⟩
    let cp2 : Point :=
      ⟨finish.x - unitX * length * (1/4) + perpX * finalDistance * (1/2),
       finish.y - unitY * length * (1/4) + perpY * finalDistance * (1/2)⟩
    ((cp1, cp2), t')

/-- `addNoise` of the source: gaussian noise on both axes, skipped entirely
when `noiseLevel <= 0`. -/
def addNoise (noiseLevel : ℚ) (p : Point) (t : Tape) : Point × Tape :=
  if noiseLevel ≤ 0 then (p, t)
  else
    let (noiseX, t₁) := gaussianRandom 0 noiseLevel t
    let (noiseY, t₂) := gaussianRandom 0 noiseLevel t₁
    (⟨p.x + noiseX, p.y + noiseY⟩, t₂)

/-- The sampling loop of `generateMousePath`: `k` more points starting at
index `i`, threading the noise draws. -/
def samplePath (p0 p1 p2 p3 : Point) (steps noise : ℚ) :
    ℕ → ℕ → Tape → List Point
  | 0, _, _ => []
  | k + 1, i, t =>
    let point := cubicGetPoint p0 p1 p2 p3 ((i : ℚ) / steps)
    let (noisy, t') := addNoise noise point t
    noisy :: samplePath p0 p1 p2 p3 steps noise k (i + 1) t'

/-- `IMousePathConfig` of the source. -/
structure MousePathConfig where
  startPoint : Point
  endPoint : Point
  curvature : ℚ
  speed : ℚ
  deviation : ℚ
  noise : ℚ
deriving DecidableEq, Repr

/-- The control-point computation of `generateMousePath`. -/
def mousePathControl (O : MathOracle) (cfg : MousePathConfig) (t : Tape) :
    (Point × Point) × Tape :=
  generateControlPoints O cfg.startPoint cfg.endPoint cfg.curvature cfg.deviation t

/-- The `steps` value of `generateMousePath`: the (possibly non-integral)
rational `max(20, min(100, pathLength / (2·speed)))`. -/
def mousePathSteps (O : MathOracle) (cfg : MousePathConfig) (t : Tape) : ℚ :=
  let ((cp1, cp2), _) := mousePathControl O cfg t
  let pathLength := cubicGetLength O cfg.startPoint cp1 cp2 cfg.endPoint
  max 20 (min 100 (pathLength / (2 * cfg.speed)))

/-- `generateMousePath` of the source.  The JavaScript loop
`for (i = 0; i <= steps; i++)` runs `⌊steps⌋ + 1` times
(`steps ≥ 20 > 0` always holds). -/
def generateMousePath (O : MathOracle) (cfg : MousePathConfig) (t : Tape) :
    List Point :=
  let ((cp1, cp2), t₁) := mousePathControl O cfg t
  let steps : ℚ := mousePathSteps O cfg t
  let count := (Int.floor steps).toNat + 1
  samplePath cfg.startPoint cp1 cp2 cfg.endPoint steps cfg.noise count 0 t₁

/-! ## SafetyMonitor
Embedding of the `SafetyMonitor` class of
`src/wow-game-agent/src/core/safety-monitor/behavior-randomizer.ts`.
Timestamps are rational milliseconds (`Date.getTime()`); the current wall
clock (`Date.now()` / `new Date()`) is an explicit `now` parameter.  The
opaque emergency-stop callback is instrumented by two counters:
`cbInvocations` counts every invocation, `cbFromCreateAlert` those performed
inside `createAlert`. -/

/-- `SafetyAlertLevel` of the source. -/
inductive SafetyAlertLevel where
  | info
  | warning
  | critical
  | emergency
deriving DecidableEq, Repr

/-- `SafetyAlertType` of the source. -/
inductive SafetyAlertType where
  | excessiveUsage
  | repetitivePattern
  | unnaturalTiming
  | fatigueDetected
  | suspiciousBehavior
  | configurationError
  | systemAnomaly
  | gameWindowLost
deriving DecidableEq, Repr

/-- `ISafetyAlert` of the source (`id`, `message`, `details` omitted: free
text / opaque payload with no control-flow influence). -/
structure Alert where
  level : SafetyAlertLevel
  atype : SafetyAlertType
  timestamp : ℚ
deriving DecidableEq, Repr

/-- `ISafetyRuleConfig` of the source. -/
structure SMConfig where
  maxSessionDuration : ℚ
  maxContinuousOperations : ℕ
  requiredRestInterval : ℚ
  maxRepetitivePatternLength : ℕ
  maxTimingVariance : ℚ
  minHumanLikenessScore : ℚ
  fatigueThreshold : ℚ
  fatigueDecayRate : ℚ
  maxErrorRate : ℚ
  safetyCheckInterval : ℚ
  enableEmergencyStop : Bool
  requireUserConfirmation : Bool
deriving DecidableEq, Repr

/-- The defaults of the `SafetyMonitor` constructor. -/
def SMConfig.default : SMConfig :=
  { maxSessionDuration := 240, maxContinuousOperations := 1000,
    requiredRestInterval := 30, maxRepetitivePatternLength := 5,
    maxTimingVariance := 3/10, minHumanLikenessScore := 7/10,
    fatigueThreshold := 4/5, fatigueDecayRate := 1/10, maxErrorRate := 1/10,
    safetyCheckInterval := 60, enableEmergencyStop := true,
    requireUserConfirmation := true }

/-- `IInputEvent` as consumed by the monitor (`id`, `position`, `key`,
`metadata` omitted: not read by any monitor rule). -/
structure InputEvent where
  etype : String
  timestamp : ℚ
  duration : ℚ
  confidence : ℚ
deriving DecidableEq, Repr

/-- `IInputSession` as consumed by `calculateFatigueLevel` (only the two
counters are read there). -/
structure SessionRecord where
  operationCount : ℕ
  errorCount : ℕ
deriving DecidableEq, Repr

/-- The mutable state of one `SafetyMonitor` instance.
`alertHistoryStats` is `usageStats.alertHistory` (never trimmed in the
source, unlike `alerts`). -/
structure SMState where
  config : SMConfig
  alerts : List Alert
  alertHistoryStats : List Alert
  inputHistory : List InputEvent
  sessionHistory : List SessionRecord
  isActive : Bool
  hasEmergencyCallback : Bool
  sessionStartTime : ℚ
  operationCount : ℕ
  restPeriods : ℕ
  lastRestTime : Option ℚ
  operationIntervals : List ℚ
  lastSafetyCheck : ℚ
  cbInvocations : ℕ
  cbFromCreateAlert : ℕ

/-- `createAlert` of the source: push the alert onto `this.alerts` and
`usageStats.alertHistory`, fire the emergency callback when
`triggerEmergencyStop && enableEmergencyStop && callback`, then trim
`this.alerts` past 1000 entries. -/
def createAlert (level : SafetyAlertLevel) (atype : SafetyAlertType)
    (triggerEmergencyStop : Bool) (now : ℚ) (s : SMState) : SMState :=
  let alert : Alert := ⟨level, atype, now⟩
  let alerts := s.alerts ++ [alert]
  let fire := triggerEmergencyStop && s.config.enableEmergencyStop && s.hasEmergencyCallback
  let alerts := if alerts.length > 1000 then alerts.drop 500 else alerts
  { s with
    alerts,
    alertHistoryStats := s.alertHistoryStats ++ [alert],
    cbInvocations := s.cbInvocations + (if fire then 1 else 0),
    cbFromCreateAlert := s.cbFromCreateAlert + (if fire then 1 else 0) }

/-- `checkSessionDuration` of the source.  Note that in the over-limit branch
the callback is invoked **twice** when armed: once inside `createAlert`
(`triggerEmergencyStop = enableEmergencyStop`) and once more directly. -/
def checkSessionDuration (now : ℚ) (s : SMState) : SMState :=
  let currentDuration := now - s.sessionStartTime
  let maxDuration := s.config.maxSessionDuration * 60 * 1000
  if currentDuration ≥ maxDuration then
    let s₁ := createAlert .critical .excessiveUsage s.config.enableEmergencyStop now s
    if s₁.config.enableEmergencyStop && s₁.hasEmergencyCallback then
      { s₁ with cbInvocations := s₁.cbInvocations + 1 }
    else s₁
  else if currentDuration ≥ maxDuration * (4/5) then
    createAlert .warning .excessiveUsage false now s
  else s

/-- `checkRestRequirement` of the source (the JavaScript
`lastRestTime?.getTime() || sessionStartTime.getTime()` also falls back when
the stored time is the falsy epoch 0). -/
def checkRestRequirement (now : ℚ) (s : SMState) : SMState :=
  let lastRest :=
    match s.lastRestTime with
    | none => s.sessionStartTime
    | some t => if t = 0 then s.sessionStartTime else t
  let timeSinceLastRest := now - lastRest
  let requiredInterval := s.config.requiredRestInterval * 60 * 1000
  if timeSinceLastRest ≥ requiredInterval then
    let s₁ := createAlert .warning .fatigueDetected false now s
    { s₁ with restPeriods := s₁.restPeriods + 1, lastRestTime := some now }
  else s

/-- `isPatternRepeating` of the source (the source compares blocks `1,…,k-1`
against block 0; block 0 trivially equals itself, so quantifying over all
blocks is the same predicate). -/
def isPatternRepeating (sequence : List String) (patternLength : ℕ) : Bool :=
  if sequence.length % patternLength ≠ 0 then false
  else
    let pattern := sequence.take patternLength
    let repetitions := sequence.length / patternLength
    (List.range repetitions).all
      (fun i => decide (((sequence.drop (i * patternLength)).take patternLength) = pattern))

/-- `detectRepeatingPattern` of the source: the smallest block length in
`[2, min(⌊n/2⌋, 10)]` for which the sequence is an exact repetition, else 0. -/
def detectRepeatingPattern (sequence : List String) : ℕ :=
  let maxPatternLength := min (sequence.length / 2) 10
  match (List.range' 2 (maxPatternLength - 1)).find?
      (fun len => isPatternRepeating sequence len) with
  | some len => len
  | none => 0

/-- `calculatePatternStrength` of the source. -/
def calculatePatternStrength (patternLength : ℕ) : ℚ :=
  min 1 ((patternLength : ℚ) / 5)

/-- `calculateVariability` of the source: coefficient of variation
`stdDev / mean`, 1 on fewer than 2 values or non-positive mean. -/
def calculateVariability (O : MathOracle) (values : List ℚ) : ℚ :=
  if values.length < 2 then 1
  else
    let mean := values.sum / (values.length : ℚ)
    let variance := ((values.map (fun v => (v - mean) ^ 2)).sum) / (values.length : ℚ)
    let stdDev := O.sqrt variance
    if mean > 0 then stdDev / mean else 1

/-- `calculateTimingVariability` of the source: variability of successive
timestamp gaps, doubled and capped at 1; `0.5` on fewer than 2 events. -/
def calculateTimingVariability (O : MathOracle) (events : List InputEvent) : ℚ :=
  if events.length < 2 then 1/2
  else
    let intervals := (events.zip events.tail).map (fun p => p.2.timestamp - p.1.timestamp)
    min 1 (calculateVariability O intervals * 2)

/-- The `Map`-building loop of `calculateTypeDiversity`, as an association
list in first-appearance order (JavaScript `Map` iterates in insertion
order). -/
def bumpCount (l : List (String × ℕ)) (k : String) : List (String × ℕ) :=
  match l with
  | [] => [(k, 1)]
  | (k', n) :: rest => if k' = k then (k', n + 1) :: rest else (k', n) :: bumpCount rest k

/-- The per-type event counts of `calculateTypeDiversity`. -/
def typeCounts (events : List InputEvent) : List (String × ℕ) :=
  events.foldl (fun acc e => bumpCount acc e.etype) []

/-- `calculateTypeDiversity` of the source: normalized Shannon entropy of the
event types. -/
def calculateTypeDiversity (O : MathOracle) (events : List InputEvent) : ℚ :=
  let counts := typeCounts events
  let totalEvents := events.length
  let entropy := counts.foldl
    (fun ent p =>
      let prob : ℚ := (p.2 : ℚ) / totalEvents
      if prob > 0 then ent - prob * O.log2 prob else ent) 0
  let maxEntropy := O.log2 (counts.length : ℚ)
  if maxEntropy > 0 then entropy / maxEntropy else 0

/-- `calculateNaturalness` of the source. -/
def calculateNaturalness (O : MathOracle) (events : List InputEvent) : ℚ :=
  if events.length = 0 then 0
  else
    let avgConfidence := ((events.map (·.confidence)).sum) / events.length
    let timingVariability := calculateTimingVariability O events
    let typeDiversity := calculateTypeDiversity O events
    avgConfidence * (2/5) + timingVariability * (3/10) + typeDiversity * (3/10)

/-- `IBehaviorPatternAnalysis` of the source. -/
structure PatternAnalysis where
  isRepetitive : Bool
  patternLength : ℕ
  patternStrength : ℚ
  variability : ℚ
  naturalness : ℚ
deriving DecidableEq, Repr

/-- `analyzeBehaviorPatterns` of the source: neutral defaults below 10
events, otherwise analysis of the last 50. -/
def analyzeBehaviorPatterns (O : MathOracle) (s : SMState) : PatternAnalysis :=
  if s.inputHistory.length < 10 then ⟨false, 0, 0, 1, 4/5⟩
  else
    let recentEvents := s.inputHistory.drop (s.inputHistory.length - 50)
    let eventTypes := recentEvents.map (·.etype)
    let durations := recentEvents.map (·.duration)
    let patternLength := detectRepeatingPattern eventTypes
    let isRepetitive := decide (patternLength > 2)
    let patternStrength := if isRepetitive then calculatePatternStrength patternLength else 0
    let variability := calculateVariability O durations
    let naturalness := calculateNaturalness O recentEvents
    ⟨isRepetitive, patternLength, patternStrength, variability, naturalness⟩

/-- `calculateFatigueLevel` of the source.  Note `operationRate` divides by
`sessionDuration / 60000`; at `sessionDuration = 0` the Lean convention
`q / 0 = 0` applies (the JavaScript source produces a NaN/Infinity float
there). -/
def calculateFatigueLevel (s : SMState) (now : ℚ) : ℚ :=
  let sessionDuration := now - s.sessionStartTime
  let timeFatigue := min 1 (sessionDuration / (s.config.maxSessionDuration * 60 * 1000))
  let f₁ := timeFatigue * (2/5)
  let operationRate := (s.operationCount : ℚ) / (sessionDuration / 60000)
  let rateFatigue := min 1 (operationRate / 20)
  let f₂ := f₁ + rateFatigue * (3/10)
  let recentSessions := s.sessionHistory.drop (s.sessionHistory.length - 10)
  let f₃ :=
    if recentSessions.length > 0 then
      let totalErrors := ((recentSessions.map (·.errorCount)).sum : ℚ)
      let totalOperations := ((recentSessions.map (·.operationCount)).sum : ℚ)
      let errorRate := if totalOperations > 0 then totalErrors / totalOperations else 0
      f₂ + min 1 (errorRate / s.config.maxErrorRate) * (3/10)
    else f₂
  min 1 f₃

/-- The per-level score penalty of `calculateSafetyScore`'s `switch`. -/
def levelPenalty : SafetyAlertLevel → ℚ
  | .emergency => 30
  | .critical => 20
  | .warning => 10
  | .info => 5

/-- The recency filter used throughout the monitor: alerts of the last 5
minutes (300 000 ms). -/
def recentAlerts (s : SMState) (now : ℚ) : List Alert :=
  s.alerts.filter (fun a => now - a.timestamp < 300000)

/-- `calculateSafetyScore` of the source. -/
def calculateSafetyScore (O : MathOracle) (s : SMState) (now : ℚ) : ℚ :=
  let score := (recentAlerts s now).foldl (fun sc a => sc - levelPenalty a.level) 100
  let fatigueLevel := calculateFatigueLevel s now
  let score := score - fatigueLevel * 15
  let analysis := analyzeBehaviorPatterns O s
  let score := if analysis.isRepetitive then score - analysis.patternStrength * 10 else score
  let score :=
    if analysis.naturalness < 7/10 then score - (7/10 - analysis.naturalness) * 20 else score
  max 0 (min 100 score)

/-- `performRealTimeSafetyCheck` of the source (called after the event has
been pushed onto `inputHistory`): low-confidence Warning alert, then the
short-interval Info alert using the second-to-last history entry. -/
def performRealTimeSafetyCheck (event : InputEvent) (now : ℚ) (s : SMState) : SMState :=
  let s₁ :=
    if event.confidence < s.config.minHumanLikenessScore then
      createAlert .warning .unnaturalTiming false now s
    else s
  if s₁.inputHistory.length ≥ 2 then
    let previousEvent := s₁.inputHistory.getD (s₁.inputHistory.length - 2) ⟨"", 0, 0, 0⟩
    let interval := event.timestamp - previousEvent.timestamp
    let s₂ := { s₁ with operationIntervals := s₁.operationIntervals ++ [interval] }
    if interval < 50 then createAlert .info .suspiciousBehavior false now s₂ else s₂
  else s₁

/-- `recordInputEvent` of the source: early return when inactive, otherwise
push + count + trim + real-time check. -/
def recordInputEvent (event : InputEvent) (now : ℚ) (s : SMState) : SMState :=
  if s.isActive = false then s
  else
    let s₁ := { s with
      inputHistory := s.inputHistory ++ [event],
      operationCount := s.operationCount + 1 }
    let s₂ :=
      if s₁.inputHistory.length > 10000 then
        { s₁ with inputHistory := s₁.inputHistory.drop 5000 }
      else s₁
    performRealTimeSafetyCheck event now s₂

/-- `checkBehaviorPatterns` of the source. -/
def checkBehaviorPatterns (O : MathOracle) (now : ℚ) (s : SMState) : SMState :=
  let analysis := analyzeBehaviorPatterns O s
  let s₁ :=
    if analysis.isRepetitive && decide (analysis.patternLength > s.config.maxRepetitivePatternLength)
    then createAlert .warning .repetitivePattern false now s
    else s
  if analysis.naturalness < 1/2 then
    createAlert .critical .suspiciousBehavior s₁.config.enableEmergencyStop now s₁
  else s₁

/-- `checkFatigueLevel` of the source. -/
def checkFatigueLevel (now : ℚ) (s : SMState) : SMState :=
  if calculateFatigueLevel s now > s.config.fatigueThreshold then
    createAlert .warning .fatigueDetected false now s
  else s

/-- `checkSystemHealth` of the source. -/
def checkSystemHealth (now : ℚ) (s : SMState) : SMState :=
  let s₁ :=
    if s.inputHistory.length > 15000 then createAlert .info .systemAnomaly false now s
    else s
  if (recentAlerts s₁ now).length > 10 then
    createAlert .warning .systemAnomaly false now s₁
  else s₁

/-- `performSafetyCheck` of the source: stamp `lastSafetyCheck`, then the
five rules in order (session duration, rest, behavior patterns, fatigue,
system health). -/
def performSafetyCheck (O : MathOracle) (now : ℚ) (s : SMState) : SMState :=
  checkSystemHealth now
    (checkFatigueLevel now
      (checkBehaviorPatterns O now
        (checkRestRequirement now
          (checkSessionDuration now { s with lastSafetyCheck := now }))))

/-- `startMonitoring` of the source (the periodic timer itself lives in the
runtime; `hasCallback` records whether an emergency callback was passed). -/
def startMonitoring (hasCallback : Bool) (s : SMState) : SMState :=
  if s.isActive then s
  else { s with isActive := true, hasEmergencyCallback := hasCallback }

/-- `stopMonitoring` of the source. -/
def stopMonitoring (s : SMState) : SMState :=
  if s.isActive = false then s else { s with isActive := false }

/-! ## Specification-side definitions and instrumentation predicates -/

/-- The four contributor offsets of one `randomizeDelay` call (rhythmic,
attention, fatigue, strategic), re-derived from the same helper sequence. -/
def randomizeDelayOffsets (baseDelay : ℚ) (s : BRState) : ℚ × ℚ × ℚ × ℚ :=
  let r₁ := applyRhythmicVariation baseDelay s
  let r₂ := applyAttentionImpact baseDelay r₁.2.2
  let r₃ := applyFatigueImpact baseDelay r₂.2.2
  let r₄ := applyStrategicRandomization baseDelay r₃.2.2
  (r₁.1, r₂.1, r₃.1, r₄.1)

/-- The safety-score formula exactly as the specification states it:
`100 − Σ penalties − fatigue·15 − (repetitive ? strength·10 : 0)
− (naturalness < 0.7 ? (0.7 − naturalness)·20 : 0)`, clamped to `[0, 100]`. -/
def specSafetyScore (alerts : List Alert) (fatigue : ℚ) (isRep : Bool)
    (strength naturalness : ℚ) : ℚ :=
  let raw := 100 - ((alerts.map (fun a => levelPenalty a.level)).sum) - fatigue * 15
    - (if isRep then strength * 10 else 0)
    - (if naturalness < 7/10 then (7/10 - naturalness) * 20 else 0)
  max 0 (min 100 raw)

/-- A monitor step `f` invokes the emergency callback only together with
appending an alert: callback and alert-history counters are non-decreasing,
and any callback invocation during the step is accompanied by at least one
alert appended during the same step. -/
def CbImpliesAlert (f : SMState → SMState) : Prop :=
  ∀ s : SMState,
    s.cbInvocations ≤ (f s).cbInvocations ∧
    s.alertHistoryStats.length ≤ (f s).alertHistoryStats.length ∧
    (s.cbInvocations < (f s).cbInvocations →
      s.alertHistoryStats.length < (f s).alertHistoryStats.length)

/-! ## Concrete instances used by witnesses and counterexamples -/

/-- A fresh `BehaviorRandomizer` state with the constructor defaults
(attention level 0.8, fatigue 0), uniform draws constantly 1/2 and gaussian
draws constantly 0. -/
def brFresh : BRState :=
  { config := BRConfig.default, fatigueLevel := 0, attentionLevel := 4/5,
    driftX := 0, driftY := 0, variations := [], operationHistory := [],
    tape := Tape.const (1/2) [] }

/-- A fresh monitor state with configuration `cfg`, flags `active`/`cb`,
session start at time 0. -/
def smFresh (cfg : SMConfig) (active cb : Bool) : SMState :=
  { config := cfg, alerts := [], alertHistoryStats := [], inputHistory := [],
    sessionHistory := [], isActive := active, hasEmergencyCallback := cb,
    sessionStartTime := 0, operationCount := 0, restPeriods := 0,
    lastRestTime := none, operationIntervals := [], lastSafetyCheck := 0,
    cbInvocations := 0, cbFromCreateAlert := 0 }

/-- The scenario of the spec: `maxSessionDuration = 1` minute, emergency stop
enabled, callback registered, fresh session started at time 0. -/
def smScenario : SMState :=
  smFresh { SMConfig.default with maxSessionDuration := 1 } true true

/-- An input event of type `ty` at time `ts` with duration 100 and
confidence 1. -/
def mkEvent (ty : String) (ts : ℚ) : InputEvent :=
  ⟨ty, ts, 100, 1⟩

/-- A monitor state whose last-50-event analysis yields naturalness exactly 1
under the witness oracle: ten full-confidence events, five of type `a` and
five of type `b` (uniform two-type distribution ⇒ normalized entropy 1), all
at timestamp 0 (zero mean interval ⇒ the source's variability fallback 1 ⇒
timing variability capped at 1). -/
def smNatural : SMState :=
  { smFresh SMConfig.default true true with
    inputHistory :=
      [mkEvent "a" 0, mkEvent "a" 0, mkEvent "a" 0, mkEvent "a" 0, mkEvent "a" 0,
       mkEvent "b" 0, mkEvent "b" 0, mkEvent "b" 0, mkEvent "b" 0, mkEvent "b" 0] }

/-- The path-generator configuration of the C3 counterexample: degenerate
segment, unit speed, no deviation, noise level 1. -/
def cfgNoisy : MousePathConfig :=
  ⟨⟨0, 0⟩, ⟨0, 0⟩, 0, 1, 0, 1⟩

/-- The same configuration with noise disabled. -/
def cfgNoiseless : MousePathConfig :=
  ⟨⟨0, 0⟩, ⟨0, 0⟩, 0, 1, 0, 0⟩

/-! ## Theorems for the claims -/

/-- **C4.**  For every positive base delay, every operation context, every
randomization strategy and fatigue/attention state, and every outcome of the
random draws (the tape), the delay returned by
`BehaviorRandomizer.randomizeDelay` lies within `[0.3·baseDelay, 3·baseDelay]`. -/
theorem c4_randomizeDelay_clamped (baseDelay : ℚ) (op : Option String)
    (s : BRState) (h : 0 < baseDelay) :
    baseDelay * (3/10) ≤ (randomizeDelay baseDelay op s).1.1 ∧
      (randomizeDelay baseDelay op s).1.1 ≤ baseDelay * 3 := by
  unfold randomizeDelay
  dsimp only
  exact ⟨le_max_left _ _, max_le (by linarith) (min_le_left _ _)⟩

/-- Witness for C4 at `baseDelay = 100` on a fresh randomizer state. -/
theorem c4_randomizeDelay_clamped_witness :
    (0:ℚ) < 100 ∧
      (100:ℚ) * (3/10) ≤ (randomizeDelay 100 none brFresh).1.1 ∧
      (randomizeDelay 100 none brFresh).1.1 ≤ 100 * 3 :=
  ⟨by norm_num, c4_randomizeDelay_clamped 100 none brFresh (by norm_num)⟩

/-- **C9.**  When `allowReordering`, `allowOmission` and `allowDuplication`
are all unset, `randomizeOperationSequence` is the identity: it returns the
input sequence unchanged with an empty variations list and leaves the
randomizer state (variation history and tape included) untouched. -/
theorem c9_randomizeOperationSequence_identity {α : Type _} [Inhabited α]
    (seq : List α) (ctx : SeqContext) (s : BRState)
    (h₁ : ctx.allowReordering = false) (h₂ : ctx.allowOmission = false)
    (h₃ : ctx.allowDuplication = false) :
    randomizeOperationSequence seq ctx s = ((seq, []), s) := by
  unfold randomizeOperationSequence
  simp [h₁, h₂, h₃]

/-- Witness for C9 on a concrete three-element sequence. -/
theorem c9_randomizeOperationSequence_identity_witness :
    randomizeOperationSequence [1, 2, 3] ⟨false, false, false⟩ brFresh =
      (([1, 2, 3], []), brFresh) :=
  c9_randomizeOperationSequence_identity [1, 2, 3] ⟨false, false, false⟩ brFresh
    rfl rfl rfl

/-- **C10.**  `recordInputEvent` on an inactive monitor (before
`startMonitoring` or after `stopMonitoring`) is a complete no-op: the whole
monitor state — event history, operation count, operation intervals, alert
list — is returned unchanged, whatever the event's confidence. -/
theorem c10_recordInputEvent_inactive (event : InputEvent) (now : ℚ)
    (s : SMState) (h : s.isActive = false) :
    recordInputEvent event now s = s := by
  unfold recordInputEvent
  simp [h]

/-- Witness for C10: a low-confidence event recorded on a never-started
monitor changes nothing. -/
theorem c10_recordInputEvent_inactive_witness :
    recordInputEvent ⟨"mouse_click", 0, 100, 0⟩ 0 (smFresh SMConfig.default false false) =
      smFresh SMConfig.default false false :=
  c10_recordInputEvent_inactive ⟨"mouse_click", 0, 100, 0⟩ 0
    (smFresh SMConfig.default false false) rfl

/-- `applyAttentionImpact` appends exactly one record to the variation
history, whatever its offset. -/
theorem applyAttentionImpact_variations_length (b : ℚ) (s : BRState) :
    (applyAttentionImpact b s).2.2.variations.length = s.variations.length + 1 := by
  simp [applyAttentionImpact, Tape.nextUnif]

/-- `applyFatigueImpact` appends exactly one record to the variation history,
whatever its offset. -/
theorem applyFatigueImpact_variations_length (b : ℚ) (s : BRState) :
    (applyFatigueImpact b s).2.2.variations.length = s.variations.length + 1 := by
  simp [applyFatigueImpact, Tape.nextUnif]

/-- `applyStrategicRandomization` appends exactly one record to the variation
history, whatever its offset. -/
theorem applyStrategicRandomization_variations_length (b : ℚ) (s : BRState) :
    (applyStrategicRandomization b s).2.2.variations.length = s.variations.length + 1 := by
  simp [applyStrategicRandomization, gaussianRandom, Tape.nextGauss]

/-- The rhythmic offset draw never touches the variation history. -/
theorem rhythmicOffsetDraw_variations (b : ℚ) (s : BRState) :
    (rhythmicOffsetDraw b s).2.variations = s.variations := by
  unfold rhythmicOffsetDraw
  dsimp only
  split_ifs <;> simp [Tape.nextUnif]

/-- `applyRhythmicVariation` appends one record unless the configured
`rhythmicVariation` is 0 (the early return), irrespective of the offset. -/
theorem applyRhythmicVariation_variations_length (b : ℚ) (s : BRState) :
    (applyRhythmicVariation b s).2.2.variations.length =
      s.variations.length + (if s.config.rhythmicVariation = 0 then 0 else 1) := by
  unfold applyRhythmicVariation
  split_ifs <;> simp [rhythmicOffsetDraw_variations]

/-- The attention contributor always hands back a pushed record. -/
theorem applyAttentionImpact_pushed (b : ℚ) (s : BRState) :
    (applyAttentionImpact b s).2.1.toList.length = 1 := by
  simp [applyAttentionImpact, Tape.nextUnif]

/-- The fatigue contributor always hands back a pushed record. -/
theorem applyFatigueImpact_pushed (b : ℚ) (s : BRState) :
    (applyFatigueImpact b s).2.1.toList.length = 1 := by
  simp [applyFatigueImpact, Tape.nextUnif]

/-- The strategic contributor always hands back a pushed record. -/
theorem applyStrategicRandomization_pushed (b : ℚ) (s : BRState) :
    (applyStrategicRandomization b s).2.1.toList.length = 1 := by
  simp [applyStrategicRandomization, gaussianRandom, Tape.nextGauss]

/-- A rhythmic contributor with non-zero offset hands back a pushed record. -/
theorem applyRhythmicVariation_pushed (b : ℚ) (s : BRState)
    (h : (applyRhythmicVariation b s).1 ≠ 0) :
    (applyRhythmicVariation b s).2.1.toList.length = 1 := by
  by_cases hc : s.config.rhythmicVariation = 0
  · exfalso
    apply h
    unfold applyRhythmicVariation
    rw [if_pos hc]
  · unfold applyRhythmicVariation
    rw [if_neg hc]
    simp

/-- **C5** (amended).  Every `randomizeDelay` call appends one record per
contributor to the randomizer's variation history *irrespective of the
offset being zero* — except the rhythmic contributor, which appends nothing
when the configured `rhythmicVariation` is 0 (the source's early return).
The list of variations *returned by the call* is what contains exactly one
entry per contributor with non-zero offset. -/
theorem c5_variation_records (baseDelay : ℚ) (op : Option String) (s : BRState) :
    (randomizeDelay baseDelay op s).2.variations.length =
      s.variations.length + (if s.config.rhythmicVariation = 0 then 3 else 4) ∧
    (randomizeDelay baseDelay op s).1.2.length =
      ((if (randomizeDelayOffsets baseDelay s).1 ≠ 0 then 1 else 0) +
       (if (randomizeDelayOffsets baseDelay s).2.1 ≠ 0 then 1 else 0) +
       (if (randomizeDelayOffsets baseDelay s).2.2.1 ≠ 0 then 1 else 0) +
       (if (randomizeDelayOffsets baseDelay s).2.2.2 ≠ 0 then 1 else 0)) := by
  unfold randomizeDelay randomizeDelayOffsets
  dsimp only
  constructor
  · rw [applyStrategicRandomization_variations_length,
      applyFatigueImpact_variations_length,
      applyAttentionImpact_variations_length,
      applyRhythmicVariation_variations_length]
    split_ifs <;> omega
  · simp only [List.length_append]
    split_ifs <;>
      simp_all [applyAttentionImpact_pushed, applyFatigueImpact_pushed,
        applyStrategicRandomization_pushed, applyRhythmicVariation_pushed]

/-- Counterexample for **C5** as stated: on a fresh default randomizer
(uniform draws 1/2, gaussian draw 0) all four contributor offsets are 0 and
the returned variations list is empty, yet four records are appended to the
randomizer's variation history — records *are* appended for zero-offset
contributors. -/
theorem c5_counterexample :
    randomizeDelayOffsets 100 brFresh = (0, 0, 0, 0) ∧
    (randomizeDelay 100 none brFresh).1.2 = [] ∧
    (randomizeDelay 100 none brFresh).2.variations.length = 4 := by
  refine ⟨?_, ?_, ?_⟩ <;> with_unfolding_all rfl

/-- `createAlert` appends exactly one entry to `usageStats.alertHistory`. -/
theorem createAlert_alertHistory_length (level : SafetyAlertLevel)
    (ty : SafetyAlertType) (tr : Bool) (now : ℚ) (s : SMState) :
    (createAlert level ty tr now s).alertHistoryStats.length =
      s.alertHistoryStats.length + 1 := by
  unfold createAlert
  simp

/-- `createAlert` invokes the callback at most once, never un-invokes it. -/
theorem createAlert_cb_le (level : SafetyAlertLevel) (ty : SafetyAlertType)
    (tr : Bool) (now : ℚ) (s : SMState) :
    s.cbInvocations ≤ (createAlert level ty tr now s).cbInvocations ∧
      (createAlert level ty tr now s).cbInvocations ≤ s.cbInvocations + 1 := by
  unfold createAlert
  dsimp only
  split_ifs <;> omega

/-- `createAlert` with `triggerEmergencyStop = false` never invokes the
callback. -/
theorem createAlert_false_cb (level : SafetyAlertLevel) (ty : SafetyAlertType)
    (now : ℚ) (s : SMState) :
    (createAlert level ty false now s).cbInvocations = s.cbInvocations := by
  unfold createAlert
  simp

/-- `CbImpliesAlert` composes. -/
theorem cbImpliesAlert_comp {f g : SMState → SMState}
    (hf : CbImpliesAlert f) (hg : CbImpliesAlert g) :
    CbImpliesAlert (fun s => g (f s)) := by
  intro s
  obtain ⟨a1, b1, c1⟩ := hf s
  obtain ⟨a2, b2, c2⟩ := hg (f s)
  dsimp only
  refine ⟨a1.trans a2, b1.trans b2, fun h => ?_⟩
  by_cases hlt : s.cbInvocations < (f s).cbInvocations
  · exact (c1 hlt).trans_le b2
  · exact b1.trans_lt (c2 (by omega))

/-- Any single `createAlert` is a `CbImpliesAlert` step. -/
theorem createAlert_cbImpliesAlert (level : SafetyAlertLevel)
    (ty : SafetyAlertType) (tr : Bool) (now : ℚ) :
    CbImpliesAlert (createAlert level ty tr now) := by
  intro s
  have h1 := createAlert_alertHistory_length level ty tr now s
  have h2 := createAlert_cb_le level ty tr now s
  exact ⟨h2.1, by omega, fun _ => by omega⟩

/-- `checkSessionDuration` invokes the callback (possibly twice: once via
`createAlert`, once directly) only in the branch that appends the Critical
alert. -/
theorem checkSessionDuration_cbImpliesAlert (now : ℚ) :
    CbImpliesAlert (checkSessionDuration now) := by
  intro s
  unfold checkSessionDuration
  dsimp only
  split_ifs <;> try dsimp only
  all_goals (
    have hL1 := createAlert_alertHistory_length .critical .excessiveUsage
      s.config.enableEmergencyStop now s
    have hC1 := createAlert_cb_le .critical .excessiveUsage
      s.config.enableEmergencyStop now s
    have hL2 := createAlert_alertHistory_length .warning .excessiveUsage false now s
    have hC2 := createAlert_cb_le .warning .excessiveUsage false now s
    exact ⟨by omega, by omega, fun _ => by omega⟩)

/-- `checkRestRequirement` is a `CbImpliesAlert` step. -/
theorem checkRestRequirement_cbImpliesAlert (now : ℚ) :
    CbImpliesAlert (checkRestRequirement now) := by
  intro s
  unfold checkRestRequirement
  dsimp only
  split_ifs <;> try dsimp only
  all_goals (
    have hL := createAlert_alertHistory_length .warning .fatigueDetected false now s
    have hC := createAlert_cb_le .warning .fatigueDetected false now s
    exact ⟨by omega, by omega, fun _ => by omega⟩)

/-- `checkBehaviorPatterns` is a `CbImpliesAlert` step. -/
theorem checkBehaviorPatterns_cbImpliesAlert (O : MathOracle) (now : ℚ) :
    CbImpliesAlert (checkBehaviorPatterns O now) := by
  intro s
  unfold checkBehaviorPatterns
  dsimp only
  split_ifs <;> try dsimp only
  all_goals (
    have hL1 := createAlert_alertHistory_length .warning .repetitivePattern false now s
    have hC1 := createAlert_cb_le .warning .repetitivePattern false now s
    have hL2 := createAlert_alertHistory_length .critical .suspiciousBehavior
      s.config.enableEmergencyStop now s
    have hC2 := createAlert_cb_le .critical .suspiciousBehavior
      s.config.enableEmergencyStop now s
    have hL3 := createAlert_alertHistory_length .critical .suspiciousBehavior
      ((createAlert .warning .repetitivePattern false now s).config.enableEmergencyStop) now
      (createAlert .warning .repetitivePattern false now s)
    have hC3 := createAlert_cb_le .critical .suspiciousBehavior
      ((createAlert .warning .repetitivePattern false now s).config.enableEmergencyStop) now
      (createAlert .warning .repetitivePattern false now s)
    exact ⟨by omega, by omega, fun _ => by omega⟩)

/-- `checkFatigueLevel` is a `CbImpliesAlert` step. -/
theorem checkFatigueLevel_cbImpliesAlert (now : ℚ) :
    CbImpliesAlert (checkFatigueLevel now) := by
  intro s
  unfold checkFatigueLevel
  try dsimp only
  split_ifs <;> try dsimp only
  all_goals (
    have hL := createAlert_alertHistory_length .warning .fatigueDetected false now s
    have hC := createAlert_cb_le .warning .fatigueDetected false now s
    exact ⟨by omega, by omega, fun _ => by omega⟩)

/-- `checkSystemHealth` is a `CbImpliesAlert` step. -/
theorem checkSystemHealth_cbImpliesAlert (now : ℚ) :
    CbImpliesAlert (checkSystemHealth now) := by
  intro s
  unfold checkSystemHealth
  dsimp only
  split_ifs <;> try dsimp only
  all_goals (
    have hL1 := createAlert_alertHistory_length .info .systemAnomaly false now s
    have hC1 := createAlert_cb_le .info .systemAnomaly false now s
    have hL2 := createAlert_alertHistory_length .warning .systemAnomaly false now s
    have hC2 := createAlert_cb_le .warning .systemAnomaly false now s
    have hL3 := createAlert_alertHistory_length .warning .systemAnomaly false now
      (createAlert .info .systemAnomaly false now s)
    have hC3 := createAlert_cb_le .warning .systemAnomaly false now
      (createAlert .info .systemAnomaly false now s)
    exact ⟨by omega, by omega, fun _ => by omega⟩)

/-- One full periodic check is a `CbImpliesAlert` step. -/
theorem performSafetyCheck_cbImpliesAlert (O : MathOracle) (now : ℚ) :
    CbImpliesAlert (performSafetyCheck O now) := by
  have hstamp : CbImpliesAlert (fun s : SMState => { s with lastSafetyCheck := now }) :=
    fun s => ⟨le_rfl, le_rfl, fun h => absurd h (lt_irrefl _)⟩
  have hchain :=
    cbImpliesAlert_comp
      (cbImpliesAlert_comp
        (cbImpliesAlert_comp
          (cbImpliesAlert_comp
            (cbImpliesAlert_comp hstamp (checkSessionDuration_cbImpliesAlert now))
            (checkRestRequirement_cbImpliesAlert now))
          (checkBehaviorPatterns_cbImpliesAlert O now))
        (checkFatigueLevel_cbImpliesAlert now))
      (checkSystemHealth_cbImpliesAlert now)
  intro s
  have := hchain s
  simpa [performSafetyCheck] using this

/-- `recordInputEvent` never invokes the emergency callback: its alerts are
created with `triggerEmergencyStop = false`. -/
theorem recordInputEvent_cb (event : InputEvent) (now : ℚ) (s : SMState) :
    (recordInputEvent event now s).cbInvocations = s.cbInvocations := by
  unfold recordInputEvent performRealTimeSafetyCheck
  try dsimp only
  split_ifs <;> simp_all [createAlert_false_cb]

/-- Counterexample for **C1** as stated: in the spec's scenario
(`maxSessionDuration = 1` minute, 61 s elapsed, emergency stop enabled,
callback registered) one periodic check does create exactly one Critical
excessive-usage alert, but the emergency callback is invoked **twice**, not
once: once inside `createAlert` and once more directly by
`checkSessionDuration`. -/
theorem c1_counterexample :
    (performSafetyCheck oracle0 61000 smScenario).alerts =
      [⟨.critical, .excessiveUsage, 61000⟩] ∧
    (performSafetyCheck oracle0 61000 smScenario).cbInvocations = 2 ∧
    (performSafetyCheck oracle0 61000 smScenario).cbInvocations ≠ 1 := by
  refine ⟨?_, ?_, ?_⟩
  · with_unfolding_all rfl
  · with_unfolding_all rfl
  · exact of_decide_eq_true (by with_unfolding_all rfl)

/-- **C1** (amended).  In the scenario `maxSessionDuration = 1` minute with
61 s elapsed, emergency stop enabled and a callback registered, one periodic
check creates exactly one alert — Critical, of type excessive-usage — and
invokes the emergency callback exactly **twice** (once from inside alert
creation, once directly from the session-duration rule). -/
theorem c1_session_limit_scenario :
    (performSafetyCheck oracle0 61000 smScenario).alerts =
      [⟨.critical, .excessiveUsage, 61000⟩] ∧
    (performSafetyCheck oracle0 61000 smScenario).alertHistoryStats =
      [⟨.critical, .excessiveUsage, 61000⟩] ∧
    (performSafetyCheck oracle0 61000 smScenario).cbInvocations = 2 := by
  refine ⟨?_, ?_, ?_⟩ <;> with_unfolding_all rfl

/-- Counterexample for **C2** as stated: in the same scenario the callback is
invoked twice while only one of the invocations happens inside
`createAlert` — so alert creation is *not* the only code path that invokes
the emergency callback (`checkSessionDuration` invokes it directly). -/
theorem c2_counterexample :
    (performSafetyCheck oracle0 61000 smScenario).cbInvocations = 2 ∧
    (performSafetyCheck oracle0 61000 smScenario).cbFromCreateAlert = 1 := by
  refine ⟨?_, ?_⟩ <;> with_unfolding_all rfl

/-- **C2** (amended).  The emergency callback has two invocation sites —
inside `createAlert` and directly in `checkSessionDuration` — but every
operation that invokes it also appends at least one alert during that same
operation: a periodic check that increments the callback counter strictly
grows the alert history, and `recordInputEvent` never invokes the callback
at all. -/
theorem c2_callback_implies_alert (O : MathOracle) (now : ℚ) (s : SMState) :
    ((performSafetyCheck O now s).cbInvocations > s.cbInvocations →
      (performSafetyCheck O now s).alertHistoryStats.length >
        s.alertHistoryStats.length) ∧
    (∀ event : InputEvent, (recordInputEvent event now s).cbInvocations =
      s.cbInvocations) :=
  ⟨fun h => (performSafetyCheck_cbImpliesAlert O now s).2.2 h,
   fun event => recordInputEvent_cb event now s⟩

/-- Witness for C2 (amended): in the C1 scenario the callback counter does
grow, and the alert history grows with it. -/
theorem c2_callback_implies_alert_witness :
    (performSafetyCheck oracle0 61000 smScenario).alertHistoryStats.length >
      smScenario.alertHistoryStats.length :=
  (c2_callback_implies_alert oracle0 61000 smScenario).1
    (of_decide_eq_true (by with_unfolding_all rfl))

/-- **C8.**  With the monitor active, `minHumanLikenessScore = 0.9`, and no
prior events or alerts, recording one event with confidence 0.5 creates
exactly one alert, of level Warning and type unnatural-timing (the
short-interval rule cannot fire on the first event). -/
theorem c8_low_confidence_event_alert (event : InputEvent) (now : ℚ) (s : SMState)
    (hact : s.isActive = true)
    (hmin : s.config.minHumanLikenessScore = 9/10)
    (hconf : event.confidence = 1/2)
    (hhist : s.inputHistory = [])
    (halerts : s.alerts = []) :
    (recordInputEvent event now s).alerts = [⟨.warning, .unnaturalTiming, now⟩] := by
  unfold recordInputEvent performRealTimeSafetyCheck createAlert
  norm_num [hact, hmin, hconf, hhist, halerts]

/-- Witness for C8 on a fresh strict monitor and a half-confidence event. -/
theorem c8_low_confidence_event_alert_witness :
    (recordInputEvent ⟨"mouse_move", 5, 100, 1/2⟩ 5
        (smFresh { SMConfig.default with minHumanLikenessScore := 9/10 } true true)).alerts =
      [⟨.warning, .unnaturalTiming, 5⟩] :=
  c8_low_confidence_event_alert ⟨"mouse_move", 5, 100, 1/2⟩ 5
    (smFresh { SMConfig.default with minHumanLikenessScore := 9/10 } true true)
    rfl rfl rfl rfl rfl

/-- **C7.**  The monitor's fatigue level is non-decreasing in the
elapsed session time when the operations-per-minute rate and the recent
error data are held fixed. -/
theorem c7_fatigue_monotone (s₁ s₂ : SMState) (now₁ now₂ : ℚ)
    (hcfg : s₁.config = s₂.config)
    (hsess : s₁.sessionHistory = s₂.sessionHistory)
    (hpos : 0 < s₁.config.maxSessionDuration)
    (hle : now₁ - s₁.sessionStartTime ≤ now₂ - s₂.sessionStartTime)
    (hrate : (s₁.operationCount : ℚ) / ((now₁ - s₁.sessionStartTime) / 60000) =
             (s₂.operationCount : ℚ) / ((now₂ - s₂.sessionStartTime) / 60000)) :
    calculateFatigueLevel s₁ now₁ ≤ calculateFatigueLevel s₂ now₂ := by
  unfold calculateFatigueLevel
  dsimp only
  rw [← hcfg, ← hsess, hrate]
  have hM : (0:ℚ) < s₁.config.maxSessionDuration * 60 * 1000 := by linarith
  have ht : min 1 ((now₁ - s₁.sessionStartTime) / (s₁.config.maxSessionDuration * 60 * 1000)) ≤
      min 1 ((now₂ - s₂.sessionStartTime) / (s₁.config.maxSessionDuration * 60 * 1000)) :=
    min_le_min le_rfl ((div_le_div_iff_of_pos_right hM).mpr hle)
  split_ifs <;> exact min_le_min le_rfl (by linarith)

/-- Witness for C7: 10 operations in 30 s versus 20 operations in 60 s — the
same 20 ops/min rate, longer elapsed time, non-decreasing fatigue. -/
theorem c7_fatigue_monotone_witness :
    calculateFatigueLevel { smFresh SMConfig.default true true with operationCount := 10 } 30000 ≤
      calculateFatigueLevel { smFresh SMConfig.default true true with operationCount := 20 } 60000 :=
  c7_fatigue_monotone
    { smFresh SMConfig.default true true with operationCount := 10 }
    { smFresh SMConfig.default true true with operationCount := 20 }
    30000 60000 rfl rfl
    (by norm_num [smFresh, SMConfig.default])
    (by norm_num [smFresh])
    (by norm_num [smFresh])

/-- The source's `forEach`-with-`switch` penalty loop equals `init − Σ`. -/
theorem foldl_sub_penalty (l : List Alert) (init : ℚ) :
    l.foldl (fun sc a => sc - levelPenalty a.level) init =
      init - ((l.map (fun a => levelPenalty a.level)).sum) := by
  induction l generalizing init with
  | nil => simp
  | cons a t ih =>
    rw [List.foldl_cons, ih, List.map_cons, List.sum_cons]
    ring

/-- **C6.**  The safety score equals the specification's formula —
`100 − Σ(level penalties over the last 5 minutes) − fatigue·15 −
(repetitive ? patternStrength·10 : 0) − (naturalness < 0.7 ?
(0.7 − naturalness)·20 : 0)`, clamped to `[0, 100]` — and in particular a
state with no recent alerts, zero fatigue, no repetitive pattern and
naturalness 1 scores exactly 100. -/
theorem c6_safety_score_formula (O : MathOracle) (s : SMState) (now : ℚ) :
    calculateSafetyScore O s now =
      specSafetyScore (recentAlerts s now) (calculateFatigueLevel s now)
        (analyzeBehaviorPatterns O s).isRepetitive
        (analyzeBehaviorPatterns O s).patternStrength
        (analyzeBehaviorPatterns O s).naturalness ∧
    (recentAlerts s now = [] → calculateFatigueLevel s now = 0 →
      (analyzeBehaviorPatterns O s).isRepetitive = false →
      (analyzeBehaviorPatterns O s).naturalness = 1 →
      calculateSafetyScore O s now = 100) := by
  have hform : calculateSafetyScore O s now =
      specSafetyScore (recentAlerts s now) (calculateFatigueLevel s now)
        (analyzeBehaviorPatterns O s).isRepetitive
        (analyzeBehaviorPatterns O s).patternStrength
        (analyzeBehaviorPatterns O s).naturalness := by
    unfold calculateSafetyScore specSafetyScore
    dsimp only
    rw [foldl_sub_penalty]
    split_ifs <;> ring_nf
  refine ⟨hform, fun h1 h2 h3 h4 => ?_⟩
  rw [hform, h1, h2, h3, h4]
  unfold specSafetyScore
  norm_num

/-- Witness for C6: the ten-event two-type full-confidence state scores
exactly 100 at session start. -/
theorem c6_safety_score_formula_witness :
    calculateSafetyScore oracle0 smNatural 0 = 100 :=
  (c6_safety_score_formula oracle0 smNatural 0).2
    (by with_unfolding_all rfl)
    (by with_unfolding_all rfl)
    (by with_unfolding_all rfl)
    (by with_unfolding_all rfl)

/-- The sampling loop produces exactly `k` points. -/
theorem samplePath_length (p0 p1 p2 p3 : Point) (steps noise : ℚ) :
    ∀ (k i : ℕ) (t : Tape),
      (samplePath p0 p1 p2 p3 steps noise k i t).length = k := by
  intro k
  induction k with
  | zero => intro i t; rfl
  | succ k ih =>
    intro i t
    rw [samplePath]
    dsimp only
    rw [List.length_cons, ih]

/-- With noise disabled the sampling loop is the plain Bezier sample map. -/
theorem samplePath_noiseless (p0 p1 p2 p3 : Point) (steps noise : ℚ)
    (hn : noise ≤ 0) :
    ∀ (k i : ℕ) (t : Tape),
      samplePath p0 p1 p2 p3 steps noise k i t =
        (List.range k).map
          (fun j => cubicGetPoint p0 p1 p2 p3 (((i + j : ℕ) : ℚ) / steps)) := by
  intro k
  induction k with
  | zero => intro i t; rfl
  | succ k ih =>
    intro i t
    rw [samplePath]
    unfold addNoise
    rw [if_pos hn]
    dsimp only
    rw [ih (i + 1) t, List.range_succ_eq_map, List.map_cons, List.map_map]
    congr 1
    apply List.map_congr_left
    intro a _
    simp only [Function.comp_apply]
    congr 1
    push_cast
    ring

/-- A cubic Bezier starts at its first control point. -/
theorem cubicGetPoint_zero (p0 p1 p2 p3 : Point) :
    cubicGetPoint p0 p1 p2 p3 0 = p0 := by
  unfold cubicGetPoint
  cases p0
  simp

/-- A cubic Bezier ends at its last control point. -/
theorem cubicGetPoint_one (p0 p1 p2 p3 : Point) :
    cubicGetPoint p0 p1 p2 p3 1 = p3 := by
  unfold cubicGetPoint
  cases p3
  simp

/-- **C3** (amended).  For every configuration and every draw outcome the
generated mouse path has at least 20 points (in fact `⌊steps⌋ + 1 ≥ 21`).
The endpoint guarantee however only holds with the per-sample noise
disabled: when `noise ≤ 0` the first point is exactly the start point, and
when additionally the computed step count is the minimum 20 (path length ≤
40·speed) the last point is exactly the end point.  With `noise > 0` the
gaussian per-sample noise is applied to the endpoints as well. -/
theorem c3_generateMousePath_endpoints (O : MathOracle) (cfg : MousePathConfig)
    (t : Tape) :
    20 ≤ (generateMousePath O cfg t).length ∧
    (cfg.noise ≤ 0 → (generateMousePath O cfg t).head? = some cfg.startPoint) ∧
    (cfg.noise ≤ 0 → mousePathSteps O cfg t = 20 →
      (generateMousePath O cfg t).getLast? = some cfg.endPoint) := by
  rcases hc : mousePathControl O cfg t with ⟨⟨cp1, cp2⟩, t₁⟩
  have hsteps : 20 ≤ mousePathSteps O cfg t := by
    unfold mousePathSteps
    rw [hc]
    exact le_max_left _ _
  have hfloor : 20 ≤ (Int.floor (mousePathSteps O cfg t)).toNat := by
    have h20 : (20 : ℤ) ≤ Int.floor (mousePathSteps O cfg t) := by
      exact_mod_cast Int.le_floor.mpr (by exact_mod_cast hsteps)
    omega
  have hgen : generateMousePath O cfg t =
      samplePath cfg.startPoint cp1 cp2 cfg.endPoint (mousePathSteps O cfg t)
        cfg.noise ((Int.floor (mousePathSteps O cfg t)).toNat + 1) 0 t₁ := by
    unfold generateMousePath
    rw [hc]
  refine ⟨?_, fun hn => ?_, fun hn h20 => ?_⟩
  · rw [hgen, samplePath_length]
    omega
  · rw [hgen, samplePath_noiseless _ _ _ _ _ _ hn]
    obtain ⟨m, hm⟩ : ∃ m, (Int.floor (mousePathSteps O cfg t)).toNat + 1 = m + 1 :=
      ⟨_, rfl⟩
    rw [hm, List.range_succ_eq_map, List.map_cons, List.head?_cons]
    norm_num [cubicGetPoint_zero]
  · rw [hgen, samplePath_noiseless _ _ _ _ _ _ hn, h20]
    have hfl : (Int.floor (20 : ℚ)).toNat = 20 := by
      have h : Int.floor (20 : ℚ) = 20 := by norm_num
      rw [h]
      rfl
    rw [hfl, List.range_succ, List.map_append, List.map_singleton,
      List.getLast?_concat]
    norm_num [cubicGetPoint_one]

set_option maxRecDepth 100000 in
/-- Counterexample for **C3** as stated: with noise level 1 and gaussian
draws 3, 4, the *first* sampled point of the generated path is the start
point plus the noise — `(3, 4)` instead of the start point `(0, 0)`.
`addNoise` is applied to every sample, endpoints included. -/
theorem c3_counterexample :
    (generateMousePath oracle0 cfgNoisy (Tape.const (1/2) [3, 4])).head? =
      some (⟨3, 4⟩ : Point) ∧
    cfgNoisy.startPoint = (⟨0, 0⟩ : Point) ∧
    (⟨3, 4⟩ : Point) ≠ (⟨0, 0⟩ : Point) := by
  refine ⟨?_, rfl, ?_⟩
  · with_unfolding_all rfl
  · decide

set_option maxRecDepth 100000 in
/-- Witness for C3 (amended): with noise 0 on a degenerate segment the path
has 21 ≥ 20 points, starts at the start point and ends at the end point. -/
theorem c3_generateMousePath_endpoints_witness :
    20 ≤ (generateMousePath oracle0 cfgNoiseless (Tape.const (1/2) [])).length ∧
    (generateMousePath oracle0 cfgNoiseless (Tape.const (1/2) [])).head? =
      some cfgNoiseless.startPoint ∧
    (generateMousePath oracle0 cfgNoiseless (Tape.const (1/2) [])).getLast? =
      some cfgNoiseless.endPoint :=
  ⟨(c3_generateMousePath_endpoints oracle0 cfgNoiseless (Tape.const (1/2) [])).1,
   (c3_generateMousePath_endpoints oracle0 cfgNoiseless (Tape.const (1/2) [])).2.1
     (of_decide_eq_true (by with_unfolding_all rfl)),
   (c3_generateMousePath_endpoints oracle0 cfgNoiseless (Tape.const (1/2) [])).2.2
     (of_decide_eq_true (by with_unfolding_all rfl))
     (by with_unfolding_all rfl)⟩
